import Mathlib

/-!
Shallow embedding of `src/software/framune.py` (the F-Ramune host driver):
the chip-descriptor codec (`MemoryChip`), the one-byte command handshake,
and the session operations (`get_version`, `version_matches`,
`_set_and_analyze_chip`, `read`, `write`), together with proofs of the
specification's testable properties.

Bytes are modelled as `List Nat` (each entry a byte value); the serial
transport is a `Wire` of pending input bytes and accumulated output bytes.
A read of `n` bytes succeeds iff at least `n` input bytes are pending,
mirroring `Framune._read`, which raises `TimeoutError` on a short read.
Python exceptions are modelled by the `FErr` error channel of an
`Except FErr α × Session` result; state changes made before an exception
persist, as they do in the Python code.
-/

/-- Wire-format letters used by `MEMORY_CHIP_DATA_STRUCTURE`
(struct letters `?` and `I`). -/
inductive FmtChar : Type
  | boolFmt : FmtChar
  | u32Fmt : FmtChar
deriving DecidableEq

/-- `struct.calcsize` for a single format letter (big-endian, no padding). -/
def fmtSize : FmtChar → Nat
  | FmtChar.boolFmt => 1
  | FmtChar.u32Fmt => 4

/-- The ordered field table `MEMORY_CHIP_DATA_STRUCTURE` from the source:
field name and wire format, in fixed order. -/
def MEMORY_CHIP_DATA_STRUCTURE : List (String × FmtChar) :=
  [("is_operational", FmtChar.boolFmt),
   ("size", FmtChar.u32Fmt),
   ("is_nonvolatile", FmtChar.boolFmt),
   ("is_eeprom", FmtChar.boolFmt)]

/-- `MEMORY_CHIP_DATA_STRUCTURE_SIZE`: `struct.calcsize` of the value-block
format, the sum of the field widths. -/
def MEMORY_CHIP_DATA_STRUCTURE_SIZE : Nat :=
  (MEMORY_CHIP_DATA_STRUCTURE.map (fun p => fmtSize p.2)).sum

/-- `MEMORY_CHIP_KNOWN_DATA_STRUCTURE_SIZE`: one `?` byte per field. -/
def MEMORY_CHIP_KNOWN_DATA_STRUCTURE_SIZE : Nat :=
  MEMORY_CHIP_DATA_STRUCTURE.length

/-- `PROTOCOL_VERSION = 0` from the source. -/
def PROTOCOL_VERSION : Nat := 0

/-- The chip descriptor: each field is `none` when unknown (`None` in the
source) and `some v` when known. `size` is carried as an `Int` because the
Python attribute may hold any integer; packing enforces the u32 range. -/
structure MemoryChip : Type where
  is_operational : Option Bool
  size : Option Int
  is_nonvolatile : Option Bool
  is_eeprom : Option Bool
deriving DecidableEq

/-- `int(x is not None)`: the byte emitted per field by
`known_status_to_bytes`. -/
def knownByte {α : Type} : Option α → Nat
  | none => 0
  | some _ => 1

/-- `struct.pack` of one `?`: `1` for a truthy value, `0` otherwise. -/
def boolByte (b : Bool) : Nat := if b then 1 else 0

/-- `struct.pack(ENDIANNESS + I, v)`: four big-endian bytes when
`0 ≤ v < 2^32`, a `struct.error` (modelled as `none`) otherwise. -/
def packU32 (v : Int) : Option (List Nat) :=
  if 0 ≤ v ∧ v < 2 ^ 32 then
    some [v.toNat / 16777216 % 256, v.toNat / 65536 % 256,
          v.toNat / 256 % 256, v.toNat % 256]
  else none

/-- `struct.unpack` of four big-endian bytes into an unsigned value. -/
def u32beVal (a b c d : Nat) : Nat := ((a * 256 + b) * 256 + c) * 256 + d

/-- `struct.unpack(ENDIANNESS + H, bytes)` on exactly two bytes. -/
def u16beVal (bs : List Nat) : Nat :=
  match bs with
  | [b0, b1] => b0 * 256 + b1
  | _ => 0

/-- `MemoryChip.known_status_to_bytes`: one byte per field in table order,
`1` if the field is known else `0`. -/
def MemoryChip.known_status_to_bytes (c : MemoryChip) : List Nat :=
  [knownByte c.is_operational, knownByte c.size,
   knownByte c.is_nonvolatile, knownByte c.is_eeprom]

/-- `MemoryChip.to_bytes`: `struct.pack` of `getattr(self, attr) or 0` for
each field in table order (`None` and falsy values both pack as zero);
fails (`none`) exactly when a known `size` is outside the u32 range. -/
def MemoryChip.to_bytes (c : MemoryChip) : Option (List Nat) :=
  match packU32 (c.size.getD 0) with
  | none => none
  | some sizeBytes =>
    some (boolByte (c.is_operational.getD false) ::
          (sizeBytes ++ [boolByte (c.is_nonvolatile.getD false),
                         boolByte (c.is_eeprom.getD false)]))

/-- `MemoryChip.from_bytes`: unpack the 4-byte known mask and 7-byte value
block; a field is `some` of its decoded value when its mask byte is
nonzero, `none` otherwise. `struct.unpack` fails (`none`) on any other
input lengths. -/
def MemoryChip.from_bytes (known properties : List Nat) : Option MemoryChip :=
  match known, properties with
  | [k0, k1, k2, k3], [p0, s0, s1, s2, s3, p5, p6] =>
    some { is_operational := if k0 = 0 then none else some (p0 != 0),
           size := if k1 = 0 then none else some ((u32beVal s0 s1 s2 s3 : Nat) : Int),
           is_nonvolatile := if k2 = 0 then none else some (p5 != 0),
           is_eeprom := if k3 = 0 then none else some (p6 != 0) }
  | _, _ => none

/-- The serial transport: bytes the peer will deliver, and bytes the host
has written so far. -/
structure Wire : Type where
  input : List Nat
  output : List Nat
deriving DecidableEq

/-- A `Framune` session: its serial wire and the stored `self._chip`. -/
structure Session : Type where
  wire : Wire
  chip : MemoryChip
deriving DecidableEq

/-- The exceptions the driver can raise: `TimeoutError`,
`ConnectionError` (the spec's `IntegrityError`), and `struct.error`. -/
inductive FErr : Type
  | timeout : FErr
  | integrity : FErr
  | structError : FErr
deriving DecidableEq

/-- `Framune._read(length)`: deliver exactly `length` bytes, or raise
`TimeoutError` when fewer are pending (a short read is a timeout). -/
def Framune.readBytes (n : Nat) (s : Session) : Except FErr (List Nat) × Session :=
  if n ≤ s.wire.input.length then
    (Except.ok (s.wire.input.take n),
     { s with wire := { s.wire with input := s.wire.input.drop n } })
  else
    (Except.error FErr.timeout, s)

/-- `Framune._write(data)`: append to the wire's output. -/
def Framune.writeBytes (bs : List Nat) (s : Session) : Session :=
  { s with wire := { s.wire with output := s.wire.output ++ bs } }

/-- `Framune._command(command)`: send the command byte, read the echo;
on a matching echo send confirm `0x00`, otherwise send deny `0x01` and
raise `ConnectionError`. Packing the command byte itself fails for values
outside the u8 range (`struct.error`). -/
def Framune.command (c : Nat) (s : Session) : Except FErr Unit × Session :=
  if c < 256 then
    match Framune.readBytes 1 (Framune.writeBytes [c] s) with
    | (Except.error e, s2) => (Except.error e, s2)
    | (Except.ok bs, s2) =>
      if bs.headD 0 = c then
        (Except.ok (), Framune.writeBytes [0] s2)
      else
        (Except.error FErr.integrity, Framune.writeBytes [1] s2)
  else
    (Except.error FErr.structError, s)

/-- `Framune._set_and_analyze_chip(chip)`: handshake for command `0x01`,
send the known mask and value block of the requested chip, read back the
bridge's 4-byte mask and 7-byte value block, and replace `self._chip` with
their decoding. -/
def Framune.set_and_analyze_chip (chip : MemoryChip) (s : Session) :
    Except FErr Unit × Session :=
  match Framune.command 1 s with
  | (Except.error e, s1) => (Except.error e, s1)
  | (Except.ok _, s1) =>
    match chip.to_bytes with
    | none =>
      (Except.error FErr.structError,
       Framune.writeBytes chip.known_status_to_bytes s1)
    | some vb =>
      match Framune.readBytes MEMORY_CHIP_KNOWN_DATA_STRUCTURE_SIZE
        (Framune.writeBytes vb (Framune.writeBytes chip.known_status_to_bytes s1)) with
      | (Except.error e, s4) => (Except.error e, s4)
      | (Except.ok kb, s4) =>
        match Framune.readBytes MEMORY_CHIP_DATA_STRUCTURE_SIZE s4 with
        | (Except.error e, s5) => (Except.error e, s5)
        | (Except.ok pb, s5) =>
          match MemoryChip.from_bytes kb pb with
          | none => (Except.error FErr.structError, s5)
          | some newChip => (Except.ok (), { s5 with chip := newChip })

/-- `Framune.get_version()`: handshake for command `0x00`, then read a
big-endian u16. -/
def Framune.get_version (s : Session) : Except FErr Nat × Session :=
  match Framune.command 0 s with
  | (Except.error e, s1) => (Except.error e, s1)
  | (Except.ok _, s1) =>
    match Framune.readBytes 2 s1 with
    | (Except.error e, s2) => (Except.error e, s2)
    | (Except.ok bs, s2) => (Except.ok (u16beVal bs), s2)

/-- `Framune.version_matches()`: `get_version() == PROTOCOL_VERSION`. -/
def Framune.version_matches (s : Session) : Except FErr Bool × Session :=
  match Framune.get_version s with
  | (Except.error e, s1) => (Except.error e, s1)
  | (Except.ok v, s1) => (Except.ok (decide (v = PROTOCOL_VERSION)), s1)

/-- `Framune.read(address, length)`: the body is `pass`, so the call
returns Python `None` (no data) and touches neither the wire nor the
stored chip. -/
def Framune.readChip (address length : Nat) (s : Session) :
    Except FErr (Option (List Nat)) × Session :=
  (Except.ok none, s)

/-- `Framune.write(address, data)`: the body is `pass`, so the call
returns Python `None` and touches neither the wire nor the stored chip. -/
def Framune.writeChip (address : Nat) (data : List Nat) (s : Session) :
    Except FErr Unit × Session :=
  (Except.ok (), s)

/-! ## Helper lemmas -/

theorem readBytes_chip_eq (n : Nat) (s : Session) :
    ((Framune.readBytes n s).2).chip = s.chip := by
  unfold Framune.readBytes
  split <;> rfl

theorem writeBytes_chip_eq (bs : List Nat) (s : Session) :
    (Framune.writeBytes bs s).chip = s.chip := rfl

theorem command_chip_eq (c : Nat) (s : Session) :
    ((Framune.command c s).2).chip = s.chip := by
  unfold Framune.command
  split
  · split
    · next e s2 heq =>
      have h := readBytes_chip_eq 1 (Framune.writeBytes [c] s)
      rw [heq] at h
      exact h
    · next bs s2 heq =>
      have h := readBytes_chip_eq 1 (Framune.writeBytes [c] s)
      rw [heq] at h
      split <;> exact h
  · rfl

/-! ## Claim theorems -/

/-- C8: the descriptor with `is_operational = true`, `size` unknown,
`is_nonvolatile = true`, `is_eeprom` unknown encodes to known mask
`[1,0,1,0]` and value block `[1,0,0,0,0,1,0]`, and the protocol constants
are a 4-byte known mask and a 7-byte value block. -/
theorem c8_concrete_encoding :
    (MemoryChip.mk (some true) none (some true) none).known_status_to_bytes
      = [1, 0, 1, 0] ∧
    (MemoryChip.mk (some true) none (some true) none).to_bytes
      = some [1, 0, 0, 0, 0, 1, 0] ∧
    MEMORY_CHIP_KNOWN_DATA_STRUCTURE_SIZE = 4 ∧
    MEMORY_CHIP_DATA_STRUCTURE_SIZE = 7 := by
  decide

/-- C2: when the echoed byte differs from the command byte, the handshake
writes exactly one further byte after the command byte — the deny byte
`0x01` — fails with the integrity error, and leaves the stored descriptor
unchanged; the rest of the pending input is not consumed. -/
theorem c2_handshake_integrity (c r : Nat) (rest : List Nat) (s : Session)
    (hc : c < 256) (hin : s.wire.input = r :: rest) (hne : r ≠ c) :
    Framune.command c s =
      (Except.error FErr.integrity,
       { wire := { input := rest, output := s.wire.output ++ [c, 1] },
         chip := s.chip }) := by
  simp [Framune.command, Framune.readBytes, Framune.writeBytes, hc, hin, hne]

/-- C2 witness: a concrete mismatching echo. -/
theorem c2_handshake_integrity_witness :
    Framune.command 7 (Session.mk (Wire.mk [9, 5] [3]) (MemoryChip.mk none none none none)) =
      (Except.error FErr.integrity,
       { wire := { input := [5], output := [3, 7, 1] },
         chip := MemoryChip.mk none none none none }) :=
  c2_handshake_integrity 7 9 [5]
    (Session.mk (Wire.mk [9, 5] [3]) (MemoryChip.mk none none none none))
    (by decide) rfl (by decide)

/-- C6: when the peer echoes exactly the command byte, the handshake sends
the confirm byte `0x00` as its final byte and returns successfully, with
the stored descriptor unchanged. -/
theorem c6_handshake_success (c : Nat) (rest : List Nat) (s : Session)
    (hc : c < 256) (hin : s.wire.input = c :: rest) :
    Framune.command c s =
      (Except.ok (),
       { wire := { input := rest, output := s.wire.output ++ [c, 0] },
         chip := s.chip }) := by
  simp [Framune.command, Framune.readBytes, Framune.writeBytes, hc, hin]

/-- C6 witness: a concrete matching echo. -/
theorem c6_handshake_success_witness :
    Framune.command 1 (Session.mk (Wire.mk [1, 8] []) (MemoryChip.mk none none none none)) =
      (Except.ok (),
       { wire := { input := [8], output := [1, 0] },
         chip := MemoryChip.mk none none none none }) :=
  c6_handshake_success 1 [8]
    (Session.mk (Wire.mk [1, 8] []) (MemoryChip.mk none none none none))
    (by decide) rfl

theorem command_ok_eq (c : Nat) (rest : List Nat) (s : Session)
    (hc : c < 256) (hin : s.wire.input = c :: rest) :
    Framune.command c s =
      (Except.ok (),
       { wire := { input := rest, output := s.wire.output ++ [c, 0] },
         chip := s.chip }) := by
  simp [Framune.command, Framune.readBytes, Framune.writeBytes, hc, hin]

/-- C3: a short read fails with the timeout error; an empty input at the
handshake's echo wait makes the handshake fail with timeout after writing
only the command byte (no ack/deny byte); a short version read makes
`get_version` fail with timeout; a short mask or value read makes the
chip negotiation fail with timeout. -/
theorem c3_timeout_propagation :
    (∀ (n : Nat) (s : Session), s.wire.input.length < n →
       Framune.readBytes n s = (Except.error FErr.timeout, s)) ∧
    (∀ (c : Nat) (s : Session), c < 256 → s.wire.input = [] →
       Framune.command c s =
         (Except.error FErr.timeout,
          { wire := { input := ([] : List Nat), output := s.wire.output ++ [c] },
            chip := s.chip })) ∧
    (∀ (s : Session) (rest : List Nat),
       s.wire.input = 0 :: rest → rest.length < 2 →
       (Framune.get_version s).1 = Except.error FErr.timeout) ∧
    (∀ (chip : MemoryChip) (s : Session) (rest vb : List Nat),
       s.wire.input = 1 :: rest → chip.to_bytes = some vb → rest.length < 11 →
       (Framune.set_and_analyze_chip chip s).1 = Except.error FErr.timeout) := by
  refine ⟨?_, ?_, ?_, ?_⟩
  · intro n s h
    unfold Framune.readBytes
    rw [if_neg (by omega)]
  · intro c s hc hin
    simp [Framune.command, Framune.readBytes, Framune.writeBytes, hc, hin]
  · intro s rest hin hlen
    have h2 : ¬ (2 ≤ rest.length) := by omega
    simp [Framune.get_version, command_ok_eq 0 rest s (by decide) hin,
          Framune.readBytes, h2]
  · intro chip s rest vb hin hvb hlen
    have hk : MEMORY_CHIP_KNOWN_DATA_STRUCTURE_SIZE = 4 := rfl
    have hd : MEMORY_CHIP_DATA_STRUCTURE_SIZE = 7 := rfl
    by_cases h4 : 4 ≤ rest.length
    · have h7 : ¬ (7 ≤ rest.length - 4) := by omega
      simp [Framune.set_and_analyze_chip, command_ok_eq 1 rest s (by decide) hin,
            hvb, Framune.readBytes, Framune.writeBytes, hk, hd, h4, h7]
    · simp [Framune.set_and_analyze_chip, command_ok_eq 1 rest s (by decide) hin,
            hvb, Framune.readBytes, Framune.writeBytes, hk, hd, h4]

/-- C3 witness: concrete short reads at each in-flight read site. -/
theorem c3_timeout_propagation_witness :
    Framune.readBytes 2 (Session.mk (Wire.mk [9] []) (MemoryChip.mk none none none none))
      = (Except.error FErr.timeout,
         Session.mk (Wire.mk [9] []) (MemoryChip.mk none none none none)) ∧
    Framune.command 0 (Session.mk (Wire.mk [] []) (MemoryChip.mk none none none none))
      = (Except.error FErr.timeout,
         Session.mk (Wire.mk [] [0]) (MemoryChip.mk none none none none)) ∧
    (Framune.get_version
       (Session.mk (Wire.mk [0, 7] []) (MemoryChip.mk none none none none))).1
      = Except.error FErr.timeout ∧
    (Framune.set_and_analyze_chip (MemoryChip.mk (some true) (some 256) (some false) none)
       (Session.mk (Wire.mk [1, 1, 0, 1, 0] []) (MemoryChip.mk none none none none))).1
      = Except.error FErr.timeout :=
  ⟨c3_timeout_propagation.1 2 _ (by decide),
   c3_timeout_propagation.2.1 0 _ (by decide) rfl,
   c3_timeout_propagation.2.2.1 _ [7] rfl (by decide),
   c3_timeout_propagation.2.2.2 (MemoryChip.mk (some true) (some 256) (some false) none)
     _ [1, 0, 1, 0] [1, 0, 0, 1, 0, 0, 0] rfl (by decide) (by decide)⟩

/-- C4: whenever the chip negotiation fails — integrity failure of the
handshake, a packing error, or a timeout on any read, including the two
response reads after the request bytes were sent — the stored descriptor
is exactly the one held before the call. -/
theorem c4_failed_negotiation_preserves_chip (chip : MemoryChip) (s s' : Session)
    (e : FErr) (h : Framune.set_and_analyze_chip chip s = (Except.error e, s')) :
    s'.chip = s.chip := by
  unfold Framune.set_and_analyze_chip at h
  split at h
  · next e1 s1 heq =>
    injection h with h1 h2
    rw [← h2]
    have hc := command_chip_eq 1 s
    rw [heq] at hc
    exact hc
  · next u s1 heq =>
    have hc1 : s1.chip = s.chip := by
      have hc := command_chip_eq 1 s
      rw [heq] at hc
      exact hc
    split at h
    · injection h with h1 h2
      rw [← h2]
      exact hc1
    · next vb hvb =>
      split at h
      · next e4 s4 heq4 =>
        injection h with h1 h2
        rw [← h2]
        have hr := readBytes_chip_eq MEMORY_CHIP_KNOWN_DATA_STRUCTURE_SIZE
          (Framune.writeBytes vb (Framune.writeBytes chip.known_status_to_bytes s1))
        rw [heq4] at hr
        rw [hr]
        exact hc1
      · next kb s4 heq4 =>
        have hc4 : s4.chip = s.chip := by
          have hr := readBytes_chip_eq MEMORY_CHIP_KNOWN_DATA_STRUCTURE_SIZE
            (Framune.writeBytes vb (Framune.writeBytes chip.known_status_to_bytes s1))
          rw [heq4] at hr
          rw [hr]
          exact hc1
        split at h
        · next e5 s5 heq5 =>
          injection h with h1 h2
          rw [← h2]
          have hr := readBytes_chip_eq MEMORY_CHIP_DATA_STRUCTURE_SIZE s4
          rw [heq5] at hr
          rw [hr]
          exact hc4
        · next pb s5 heq5 =>
          have hc5 : s5.chip = s.chip := by
            have hr := readBytes_chip_eq MEMORY_CHIP_DATA_STRUCTURE_SIZE s4
            rw [heq5] at hr
            rw [hr]
            exact hc4
          split at h
          · injection h with h1 h2
            rw [← h2]
            exact hc5
          · exact absurd h (by simp)

/-- C4 witness: a concrete failed negotiation (integrity failure) leaves
the stored descriptor unchanged. -/
theorem c4_failed_negotiation_preserves_chip_witness :
    (Session.mk (Wire.mk [] [1, 1]) (MemoryChip.mk (some true) (some 256) (some false) none)).chip
      = (Session.mk (Wire.mk [2] []) (MemoryChip.mk (some true) (some 256) (some false) none)).chip :=
  c4_failed_negotiation_preserves_chip (MemoryChip.mk none none none none)
    (Session.mk (Wire.mk [2] []) (MemoryChip.mk (some true) (some 256) (some false) none))
    (Session.mk (Wire.mk [] [1, 1]) (MemoryChip.mk (some true) (some 256) (some false) none))
    FErr.integrity rfl

/-- C5: a successful negotiation replaces the stored descriptor with
exactly the decoding of the bridge's response blocks; nothing of the
previous descriptor or of the locally requested values survives. -/
theorem c5_negotiation_replaces_descriptor (chip newChip : MemoryChip)
    (vb kb pb rest : List Nat) (s : Session)
    (hvb : chip.to_bytes = some vb)
    (hk : kb.length = 4) (hp : pb.length = 7)
    (hin : s.wire.input = 1 :: (kb ++ (pb ++ rest)))
    (hnew : MemoryChip.from_bytes kb pb = some newChip) :
    Framune.set_and_analyze_chip chip s =
      (Except.ok (),
       { wire := { input := rest,
                   output := s.wire.output ++ [1, 0]
                     ++ chip.known_status_to_bytes ++ vb },
         chip := newChip }) := by
  have hk4 : MEMORY_CHIP_KNOWN_DATA_STRUCTURE_SIZE = 4 := rfl
  have hd7 : MEMORY_CHIP_DATA_STRUCTURE_SIZE = 7 := rfl
  have htake : (kb ++ (pb ++ rest)).take 4 = kb := List.take_left' hk
  have hdrop : (kb ++ (pb ++ rest)).drop 4 = pb ++ rest := List.drop_left' hk
  have htake2 : (pb ++ rest).take 7 = pb := List.take_left' hp
  have hdrop2 : (pb ++ rest).drop 7 = rest := List.drop_left' hp
  simp [Framune.set_and_analyze_chip, command_ok_eq 1 _ s (by decide) hin, hvb,
        Framune.readBytes, Framune.writeBytes, hk4, hd7,
        hk, hp, htake, hdrop, htake2, hdrop2, hnew]

/-- C5 witness: a concrete successful negotiation; the bridge's response
decodes to a descriptor that differs from both the previous one and the
requested one, and it is installed verbatim. -/
theorem c5_negotiation_replaces_descriptor_witness :
    Framune.set_and_analyze_chip (MemoryChip.mk (some true) (some 256) (some false) none)
      (Session.mk (Wire.mk [1, 1, 0, 1, 0, 1, 0, 0, 0, 0, 1, 0] [])
        (MemoryChip.mk (some false) (some 1) none none)) =
      (Except.ok (),
       Session.mk (Wire.mk [] [1, 0, 1, 1, 1, 0, 1, 0, 0, 1, 0, 0, 0])
         (MemoryChip.mk (some true) none (some true) none)) :=
  c5_negotiation_replaces_descriptor
    (MemoryChip.mk (some true) (some 256) (some false) none)
    (MemoryChip.mk (some true) none (some true) none)
    [1, 0, 0, 1, 0, 0, 0] [1, 0, 1, 0] [1, 0, 0, 0, 0, 1, 0] []
    (Session.mk (Wire.mk [1, 1, 0, 1, 0, 1, 0, 0, 0, 0, 1, 0] [])
      (MemoryChip.mk (some false) (some 1) none none))
    (by decide) rfl rfl rfl (by decide)

theorem boolByte_bne_zero (b : Bool) : ((boolByte b : Nat) != 0) = b := by
  cases b <;> rfl

theorem u32_pack_unpack (v : Int) (h0 : 0 ≤ v) (h1 : v < 2 ^ 32) :
    ((u32beVal (v.toNat / 16777216 % 256) (v.toNat / 65536 % 256)
      (v.toNat / 256 % 256) (v.toNat % 256) : Nat) : Int) = v := by
  unfold u32beVal
  omega

/-- C1: decoding the pair produced by `known_status_to_bytes` and
`to_bytes` reconstructs the descriptor exactly — the same known fields
with the same values, the unknown fields unknown again — whenever the
descriptor packs at all (every in-range assignment of known fields). -/
theorem c1_descriptor_round_trip (d : MemoryChip) (vb : List Nat)
    (hv : d.to_bytes = some vb) :
    MemoryChip.from_bytes d.known_status_to_bytes vb = some d := by
  obtain ⟨o, sz, nv, ee⟩ := d
  rcases sz with _ | v
  · unfold MemoryChip.to_bytes packU32 at hv
    rw [show (Option.none : Option Int).getD 0 = 0 from rfl,
        if_pos (by decide : (0 : Int) ≤ 0 ∧ (0 : Int) < 2 ^ 32)] at hv
    simp only [Option.some.injEq] at hv
    subst hv
    rcases o with _ | b1 <;> rcases nv with _ | b3 <;> rcases ee with _ | b4 <;>
      simp [MemoryChip.known_status_to_bytes, MemoryChip.from_bytes, knownByte,
            boolByte_bne_zero]
  · have hrange : (0 : Int) ≤ v ∧ v < 2 ^ 32 := by
      by_contra hc
      unfold MemoryChip.to_bytes packU32 at hv
      rw [show (Option.some v).getD 0 = v from rfl, if_neg hc] at hv
      exact Option.noConfusion hv
    unfold MemoryChip.to_bytes packU32 at hv
    rw [show (Option.some v).getD 0 = v from rfl, if_pos hrange] at hv
    simp only [Option.some.injEq] at hv
    subst hv
    rcases o with _ | b1 <;> rcases nv with _ | b3 <;> rcases ee with _ | b4 <;>
      simp [MemoryChip.known_status_to_bytes, MemoryChip.from_bytes, knownByte,
            boolByte_bne_zero, u32_pack_unpack v hrange.1 hrange.2]

/-- C1 witness: a concrete mixed descriptor round-trips. -/
theorem c1_descriptor_round_trip_witness :
    MemoryChip.from_bytes
      (MemoryChip.mk (some true) (some 256) (some false) none).known_status_to_bytes
      [1, 0, 0, 1, 0, 0, 0]
      = some (MemoryChip.mk (some true) (some 256) (some false) none) :=
  c1_descriptor_round_trip (MemoryChip.mk (some true) (some 256) (some false) none)
    [1, 0, 0, 1, 0, 0, 0] (by decide)

/-- C7: whenever `get_version` returns a value `v`, `version_matches`
returns the boolean comparison of `v` with the compiled-in protocol
version constant, which is `0` — it never raises on a mismatch. -/
theorem c7_version_matches_is_boolean (s s' : Session) (v : Nat)
    (h : Framune.get_version s = (Except.ok v, s')) :
    Framune.version_matches s = (Except.ok (decide (v = PROTOCOL_VERSION)), s')
      ∧ PROTOCOL_VERSION = 0 := by
  constructor
  · unfold Framune.version_matches
    rw [h]
  · rfl

/-- C7 witness: a peer reporting version 5 makes `version_matches` return
`false` without an error. -/
theorem c7_version_matches_is_boolean_witness :
    Framune.version_matches
      (Session.mk (Wire.mk [0, 0, 5] []) (MemoryChip.mk none none none none)) =
      (Except.ok (decide ((5 : Nat) = PROTOCOL_VERSION)),
       Session.mk (Wire.mk [] [0, 0]) (MemoryChip.mk none none none none))
      ∧ PROTOCOL_VERSION = 0 :=
  c7_version_matches_is_boolean
    (Session.mk (Wire.mk [0, 0, 5] []) (MemoryChip.mk none none none none))
    (Session.mk (Wire.mk [] [0, 0]) (MemoryChip.mk none none none none))
    5 rfl

/-- C9 counterexample: at address 0 and length 1 (resp. data `[1]`), the
memory-transfer operations complete without raising, return Python `None`
(no data, no not-supported indication), and leave the session untouched —
they do not surface an explicit "not supported" result. -/
theorem c9_no_not_supported_result :
    Framune.readChip 0 1 (Session.mk (Wire.mk [] []) (MemoryChip.mk none none none none))
      = (Except.ok none,
         Session.mk (Wire.mk [] []) (MemoryChip.mk none none none none)) ∧
    Framune.writeChip 0 [1] (Session.mk (Wire.mk [] []) (MemoryChip.mk none none none none))
      = (Except.ok (),
         Session.mk (Wire.mk [] []) (MemoryChip.mk none none none none)) :=
  ⟨rfl, rfl⟩

/-- C9 (amended): for every address and length (resp. data), `read` and
`write` perform no wire exchange and change nothing, but they return
Python `None` silently instead of surfacing an explicit "not supported"
result. -/
theorem c9_read_write_are_silent_stubs (address n : Nat) (data : List Nat)
    (s : Session) :
    Framune.readChip address n s = (Except.ok none, s) ∧
    Framune.writeChip address data s = (Except.ok (), s) :=
  ⟨rfl, rfl⟩

/-- C10: packing a descriptor succeeds for every known `size` in the
unsigned 32-bit range and fails with a packing error — it never wraps or
truncates — for every known `size` outside it. -/
theorem c10_to_bytes_size_range (d : MemoryChip) (v : Int) (hs : d.size = some v) :
    ((0 ≤ v ∧ v < 2 ^ 32) → ∃ bs, d.to_bytes = some bs) ∧
    ((v < 0 ∨ 2 ^ 32 ≤ v) → d.to_bytes = none) := by
  constructor
  · intro hr
    unfold MemoryChip.to_bytes packU32
    rw [hs, show (Option.some v).getD 0 = v from rfl, if_pos hr]
    exact ⟨_, rfl⟩
  · intro hr
    unfold MemoryChip.to_bytes packU32
    rw [hs, show (Option.some v).getD 0 = v from rfl, if_neg (by omega)]

/-- C10 witness: size 5 packs, size 2^32 and size -1 do not. -/
theorem c10_to_bytes_size_range_witness :
    (∃ bs, (MemoryChip.mk none (some 5) none none).to_bytes = some bs) ∧
    (MemoryChip.mk none (some (2 ^ 32)) none none).to_bytes = none ∧
    (MemoryChip.mk none (some (-1)) none none).to_bytes = none :=
  ⟨(c10_to_bytes_size_range (MemoryChip.mk none (some 5) none none) 5 rfl).1
     (by decide),
   (c10_to_bytes_size_range (MemoryChip.mk none (some (2 ^ 32)) none none)
     (2 ^ 32) rfl).2 (by norm_num),
   (c10_to_bytes_size_range (MemoryChip.mk none (some (-1)) none none)
     (-1) rfl).2 (by norm_num)⟩
